import Mathlib

/-!
Shallow embedding of the AI_JobSourceAgent repository (career-page discovery
pipeline) and proofs about its claims.

Source files embedded: src/models.py (ExecutionStatistics), src/career_finder.py
(CareerPageFinder), src/claude_fallback.py (ClaudeFallback), src/pipeline.py
(JobSourcePipeline), src/position_extractor.py (PositionExtractor),
src/config.py (Configuration defaults).

External collaborators (requests, BeautifulSoup parsing, urljoin/urlparse,
Playwright, the Anthropic API) are modelled as oracle function parameters:
the embedding is exact in the control flow and state updates of the
repository's own code, while library calls are uninterpreted inputs.
-/

namespace JobSource

/-! ## Generic loop combinator

Python loops of the shape `for x in xs: if f(x) is not None: return f(x)`
are translated with this first-hit combinator. -/

/-- Return the value of the first element on which f fires, scanning left to
right; none if no element fires. -/
def firstHit (f : α → Option β) : List α → Option β
  | [] => none
  | a :: l =>
    match f a with
    | some b => some b
    | none => firstHit f l

theorem firstHit_nil (f : α → Option β) : firstHit f [] = none := rfl

theorem firstHit_cons (f : α → Option β) (a : α) (l : List α) :
    firstHit f (a :: l) = match f a with | some b => some b | none => firstHit f l := rfl

theorem firstHit_append (f : α → Option β) (l₁ l₂ : List α) :
    firstHit f (l₁ ++ l₂) =
      match firstHit f l₁ with
      | some b => some b
      | none => firstHit f l₂ := by
  induction l₁ with
  | nil => simp [firstHit]
  | cons a l ih =>
    simp only [List.cons_append, firstHit]
    cases f a <;> simp [ih]

theorem firstHit_eq_none_iff (f : α → Option β) (l : List α) :
    firstHit f l = none ↔ ∀ a ∈ l, f a = none := by
  induction l with
  | nil => simp [firstHit]
  | cons a l ih =>
    simp only [firstHit]
    cases h : f a with
    | some b => simp [h]
    | none => simpa [h] using ih

theorem firstHit_of_head_fires (f : α → Option β) (l₁ l₂ : List α) (a : α) (b : β)
    (h₁ : ∀ x ∈ l₁, f x = none) (h₂ : f a = some b) :
    firstHit f (l₁ ++ a :: l₂) = some b := by
  rw [firstHit_append, (firstHit_eq_none_iff f l₁).mpr h₁, firstHit_cons, h₂]

theorem firstHit_isSome_mem (f : α → Option β) (l : List α) (b : β)
    (h : firstHit f l = some b) : ∃ a ∈ l, f a = some b := by
  induction l with
  | nil => simp [firstHit] at h
  | cons a l ih =>
    simp only [firstHit] at h
    cases ha : f a with
    | some c =>
      rw [ha] at h
      exact ⟨a, List.mem_cons_self a l, by rw [ha]; simpa using h⟩
    | none =>
      rw [ha] at h
      obtain ⟨x, hx, hfx⟩ := ih h
      exact ⟨x, List.mem_cons_of_mem a hx, hfx⟩

/-! ## String helpers mirroring the Python builtins the source relies on -/

/-- Python `needle in hay` substring test. -/
def containsSub (hay needle : String) : Bool :=
  hay.toList.tails.any (fun t => needle.toList.isPrefixOf t)

/-- Python `str.lower()` (the source's inputs are ASCII). -/
def toLowerStr (s : String) : String := String.mk (s.toList.map Char.toLower)

/-- Python `str.upper()`. -/
def toUpperStr (s : String) : String := String.mk (s.toList.map Char.toUpper)

/-- Python `str.startswith(pre)`. -/
def pyStartsWith (s pre : String) : Bool := pre.toList.isPrefixOf s.toList

/-- Python `str.strip()`: remove leading and trailing whitespace. -/
def pyStrip (s : String) : String :=
  String.mk (((s.toList.dropWhile Char.isWhitespace).reverse.dropWhile
    Char.isWhitespace).reverse)

/-- Python `str.rstrip("/")`: remove all trailing slash characters. -/
def rstripSlash (s : String) : String :=
  String.mk (List.reverse (s.toList.reverse.dropWhile (fun c => c = '/')))

/-! ## Configuration defaults (src/config.py) -/

/-- Configuration.career_paths (src/config.py lines 21-35). -/
def careerPaths : List String :=
  ["/careers", "/jobs", "/about/careers", "/about/jobs", "/join-us",
   "/work-with-us", "/career", "/job-openings", "/open-positions",
   "/opportunities", "/en/careers", "/us/careers", "/company/careers"]

/-- Configuration.career_keywords (src/config.py lines 36-48). -/
def careerKeywords : List String :=
  ["careers", "jobs", "join us", "opportunities", "work with us",
   "open positions", "job openings", "we\x27re hiring", "hiring",
   "come work", "employment"]

/-! ## ExecutionStatistics (src/models.py lines 77-121)

The datetime fields start_time/end_time and the float field
total_processing_time are wall-clock data not referenced by any claim and
are omitted; every counter field is kept. -/

structure ExecutionStatistics where
  total_processed : Nat := 0
  successful : Nat := 0
  failed : Nat := 0
  tier1_success : Nat := 0
  tier2_success : Nat := 0
  tier3_success : Nat := 0
  claude_api_calls : Nat := 0
  linkedin_api_calls : Nat := 0
deriving DecidableEq

/-- ExecutionStatistics dataclass defaults: all counters zero. -/
def initStats : ExecutionStatistics := {}

/-- ExecutionStatistics.increment_success (src/models.py lines 97-105). -/
def increment_success (tier : Nat) (s : ExecutionStatistics) : ExecutionStatistics :=
  let s := { s with successful := s.successful + 1,
                    total_processed := s.total_processed + 1 }
  if tier = 1 then { s with tier1_success := s.tier1_success + 1 }
  else if tier = 2 then { s with tier2_success := s.tier2_success + 1 }
  else if tier = 3 then { s with tier3_success := s.tier3_success + 1 }
  else s

/-- ExecutionStatistics.increment_failure (src/models.py lines 107-109). -/
def increment_failure (s : ExecutionStatistics) : ExecutionStatistics :=
  { s with failed := s.failed + 1, total_processed := s.total_processed + 1 }

/-- Python builtin max(list, key=...) keeps the first element on key ties:
a later element replaces the current best only when strictly greater. -/
def pyMaxBySnd (init : Nat × Nat) (l : List (Nat × Nat)) : Nat × Nat :=
  l.foldl (fun best x => if x.2 > best.2 then x else best) init

/-- JobSourcePipeline._determine_tier (src/pipeline.py lines 248-258):
max over [(1, tier1_success), (2, tier2_success), (3, tier3_success)]
keyed on the count. -/
def determine_tier (s : ExecutionStatistics) : Nat :=
  (pyMaxBySnd (1, s.tier1_success) [(2, s.tier2_success), (3, s.tier3_success)]).1

/-- Counter read-back used to state properties of determine_tier. -/
def tierCount (s : ExecutionStatistics) : Nat → Nat
  | 1 => s.tier1_success
  | 2 => s.tier2_success
  | 3 => s.tier3_success
  | _ => 0

/-! ## Tier 1: CareerPageFinder.find_via_direct_paths (src/career_finder.py 92-112)

requests.head is an oracle `head : String -> Option (Nat × String)`; none
models a requests.RequestException (the except branch: continue), some
(status, finalUrl) models a response with its status_code and final
redirect-resolved url. -/

/-- CareerPageFinder._is_valid_career_page (src/career_finder.py 178-181):
the lowercased url contains at least one career keyword. -/
def is_valid_career_page (kw : List String) (url : String) : Bool :=
  kw.any (fun k => containsSub (toLowerStr url) k)

/-- Outcome of probing one candidate path: the resolved url when the probe
returned status 200 and the resolved url passes _is_valid_career_page. -/
def pathHit (head : String → Option (Nat × String)) (kw : List String)
    (company_url : String) (path : String) : Option String :=
  match head (rstripSlash company_url ++ path) with
  | none => none
  | some (status, finalUrl) =>
    if status = 200 ∧ is_valid_career_page kw finalUrl then some finalUrl else none

/-- CareerPageFinder.find_via_direct_paths (src/career_finder.py 92-112):
loop over common_paths, probe company_url.rstrip("/") + path, return
response.url on the first 200-status probe whose resolved url passes
_is_valid_career_page; a RequestException skips to the next path; all
paths exhausted returns None. -/
def find_via_direct_paths (head : String → Option (Nat × String)) (kw : List String)
    (company_url : String) : List String → Option String
  | [] => none
  | path :: rest =>
    match head (rstripSlash company_url ++ path) with
    | none => find_via_direct_paths head kw company_url rest
    | some (status, finalUrl) =>
      if status = 200 ∧ is_valid_career_page kw finalUrl then some finalUrl
      else find_via_direct_paths head kw company_url rest

/-! ## Tier 2: CareerPageFinder.scrape_homepage (src/career_finder.py 114-159)

The parsed homepage (BeautifulSoup document) is modelled as a list of
top-level items: container elements (footer, nav, header, or other tags)
holding their anchors in document order, or bare anchors outside any such
container. soup.find_all("a") traverses all anchors in document order;
soup.find_all(tag) returns the containers with that tag in document order. -/

structure Anchor where
  href : String
  text : String
deriving DecidableEq

inductive CKind where
  | footer
  | nav
  | header
  | other
deriving DecidableEq

inductive Elem where
  | cont (kind : CKind) (anchors : List Anchor)
  | bare (a : Anchor)
deriving DecidableEq

/-- soup.find_all(tag) for a container tag: the anchor lists of the
containers with that tag, in document order. -/
def find_all_cont (k : CKind) : List Elem → List (List Anchor)
  | [] => []
  | Elem.cont k' anchors :: rest =>
    if k' = k then anchors :: find_all_cont k rest else find_all_cont k rest
  | Elem.bare _ :: rest => find_all_cont k rest

/-- soup.find_all("a", href=True): every anchor of the document in document
order (anchors inside containers included). -/
def all_anchors : List Elem → List Anchor
  | [] => []
  | Elem.cont _ anchors :: rest => anchors ++ all_anchors rest
  | Elem.bare a :: rest => a :: all_anchors rest

/-- CareerPageFinder._matches_career_keyword (src/career_finder.py 173-176):
any keyword is a substring of (text + " " + url).lower(). -/
def matches_career_keyword (kw : List String) (text url : String) : Bool :=
  kw.any (fun k => containsSub (toLowerStr (text ++ " " ++ url)) k)

/-- One anchor tested the way both scan loops in the source do: link text is
lowercased by get_text(...).lower() before _matches_career_keyword; on a
match the loop returns the raw href. -/
def anchorMatch (kw : List String) (a : Anchor) : Option String :=
  if matches_career_keyword kw (toLowerStr a.text) a.href then some a.href else none

/-- Inner loop of check_footer_nav: first matching anchor of one container. -/
def scan_anchors (kw : List String) : List Anchor → Option String
  | [] => none
  | a :: rest =>
    if matches_career_keyword kw (toLowerStr a.text) a.href then some a.href
    else scan_anchors kw rest

/-- Middle loop of check_footer_nav over the containers of one tag. -/
def scan_containers (kw : List String) : List (List Anchor) → Option String
  | [] => none
  | c :: rest =>
    match scan_anchors kw c with
    | some href => some href
    | none => scan_containers kw rest

/-- CareerPageFinder.check_footer_nav (src/career_finder.py 150-159): for
container_tag in ["footer", "nav"], for each such container, for each of its
anchors, return the first href matching a career keyword. -/
def check_footer_nav (kw : List String) (doc : List Elem) : Option String :=
  match scan_containers kw (find_all_cont CKind.footer doc) with
  | some href => some href
  | none => scan_containers kw (find_all_cont CKind.nav doc)

/-- Fallback loop of scrape_homepage over all anchors (src/career_finder.py
137-143): on a keyword match, resolve to an absolute url and return it only
if validate_url passes, else keep scanning. -/
def scan_all_links (urljoin : String → String → String) (isValid : String → Bool)
    (kw : List String) (base : String) : List Anchor → Option String
  | [] => none
  | a :: rest =>
    if matches_career_keyword kw (toLowerStr a.text) a.href then
      let absolute := urljoin base a.href
      if isValid absolute then some absolute
      else scan_all_links urljoin isValid kw base rest
    else scan_all_links urljoin isValid kw base rest

/-- CareerPageFinder.scrape_homepage (src/career_finder.py 114-148).
requests.get is the oracle `get` (none = RequestException, caught and
logged, returning None); urljoin and the urlparse-based validate_url are
the oracles `urljoin` and `isValid`. A footer/nav hit is returned through
make_absolute_url without the validate_url check; the all-anchors fallback
requires validate_url. -/
def scrape_homepage (get : String → Option (Nat × List Elem))
    (urljoin : String → String → String) (isValid : String → Bool)
    (kw : List String) (company_url : String) : Option String :=
  match get company_url with
  | none => none
  | some (status, doc) =>
    if status ≠ 200 then none
    else
      match check_footer_nav kw doc with
      | some href => some (urljoin company_url href)
      | none => scan_all_links urljoin isValid kw company_url (all_anchors doc)

/-! ## ClaudeFallback (src/claude_fallback.py)

The client handle `_client`, the messages.create call and the SDK response
object are modelled as: a `client_inited` flag, an oracle outcome
`api : Option Resp` per call (none = the call raised, caught by the except
branch), and a Resp record whose content field is the text of
response.content[0] (none = AttributeError/IndexError while reading it,
caught inside _parse_claude_response). Observable actions are recorded as
events so that "no network request", "no client construction" and "no
prompt construction" are statable. -/

structure Resp where
  content : Option String
deriving DecidableEq

inductive CFEvent where
  | limitWarn
  | noKeyWarn
  | tier3Info
  | clientInit
  | promptBuilt
  | apiAttempt
deriving DecidableEq

structure ClaudeState where
  calls_this_month : Nat
  max_calls_per_month : Nat
  api_key : String
  client_inited : Bool
deriving DecidableEq

/-- ClaudeFallback.check_monthly_limit (src/claude_fallback.py 79-81). -/
def check_monthly_limit (st : ClaudeState) : Bool :=
  st.calls_this_month < st.max_calls_per_month

/-- ClaudeFallback._parse_claude_response (src/claude_fallback.py 96-104):
strip the text; "UNKNOWN" (any case) or text not starting with "http"
yields None, otherwise the stripped text verbatim. -/
def parse_claude_response (r : Resp) : Option String :=
  match r.content with
  | none => none
  | some raw =>
    let text := pyStrip raw
    if toUpperStr text = "UNKNOWN" ∨ ¬ pyStartsWith text "http" then none
    else some text

/-- ClaudeFallback.find_career_page_ai (src/claude_fallback.py 47-77):
check_monthly_limit first, then the api-key check, then (in the try block)
lazily construct the client, build the prompt, dispatch the request; the
call counter is incremented by increment_call_counter only after
messages.create returns, then the response is parsed; an exception from the
call is caught and None returned. Returns
(result, new client state, new statistics, events in order). -/
def find_career_page_ai (api : Option Resp) (st : ClaudeState)
    (stats : ExecutionStatistics) :
    Option String × ClaudeState × ExecutionStatistics × List CFEvent :=
  if ¬ check_monthly_limit st then
    (none, st, stats, [CFEvent.limitWarn])
  else if st.api_key = "" then
    (none, st, stats, [CFEvent.noKeyWarn])
  else
    let st₁ := { st with client_inited := true }
    let events₁ :=
      if st.client_inited then [CFEvent.tier3Info]
      else [CFEvent.tier3Info, CFEvent.clientInit]
    let events := events₁ ++ [CFEvent.promptBuilt, CFEvent.apiAttempt]
    match api with
    | none => (none, st₁, stats, events)
    | some resp =>
      let st₂ := { st₁ with calls_this_month := st₁.calls_this_month + 1 }
      let stats₂ := { stats with claude_api_calls := stats.claude_api_calls + 1 }
      (parse_claude_response resp, st₂, stats₂, events)

/-! ## CareerPageFinder.find_career_page (src/career_finder.py 56-90)

All external collaborators of one run are bundled in DiscoveryEnv. The
finder's own tierN_success_count mirror fields are not referenced by any
claim and are omitted; the shared ExecutionStatistics updates are kept
exactly. The returned List Nat is instrumentation recording which tiers
were invoked, in invocation order. -/

structure DiscoveryEnv where
  /-- requests.head outcome per probed url (none = RequestException). -/
  head : String → Option (Nat × String)
  /-- requests.get outcome per fetched url (none = RequestException). -/
  get : String → Option (Nat × List Elem)
  /-- urllib.parse.urljoin. -/
  urljoin : String → String → String
  /-- the urlparse-based structural check of CareerPageFinder.validate_url. -/
  isValid : String → Bool
  /-- URLValidator.normalize (urlparse-based scheme/netloc normalization). -/
  normalize : String → String
  /-- Anthropic messages.create outcome per company url (none = raised). -/
  api : String → Option Resp
  /-- whether a ClaudeFallback collaborator is configured (0..1). -/
  hasClaude : Bool

/-- CareerPageFinder.find_career_page (src/career_finder.py 56-90): normalize
the url, then Tier 1 (find_via_direct_paths), on None Tier 2
(scrape_homepage), on None Tier 3 (claude_fallback.find_career_page_ai, only
when a fallback is configured); the first tier returning a url wins and
increments that tier's shared statistics via increment_success. Returns
(result, claude state, statistics, tiers invoked in order). -/
def find_career_page (env : DiscoveryEnv) (paths kw : List String)
    (cst : ClaudeState) (stats : ExecutionStatistics) (company_url : String) :
    Option String × ClaudeState × ExecutionStatistics × List Nat :=
  let url := env.normalize company_url
  match find_via_direct_paths env.head kw url paths with
  | some r => (some r, cst, increment_success 1 stats, [1])
  | none =>
    match scrape_homepage env.get env.urljoin env.isValid kw url with
    | some r => (some r, cst, increment_success 2 stats, [1, 2])
    | none =>
      if env.hasClaude then
        match find_career_page_ai (env.api url) cst stats with
        | (some r, cst', stats', _) => (some r, cst', increment_success 3 stats', [1, 2, 3])
        | (none, cst', stats', _) => (none, cst', stats', [1, 2, 3])
      else (none, cst, stats, [1, 2])

/-! ## PositionExtractor (src/position_extractor.py)

Playwright is modelled as: `nav`, the outcome of navigate_to_page (none =
navigation failure, some query = a live page whose query_selector_all is the
oracle `query`); each element is represented by its href attribute (none =
get_attribute returned None or raised, both caught in _extract_job_url). A
query outcome of none models an exception inside query_selector_all for that
selector (the except branch: continue). -/

/-- PositionExtractor.JOB_SELECTORS (src/position_extractor.py 31-47). -/
def jobSelectors : List String :=
  ["a[href*=\"job\"]", "a[href*=\"position\"]", "a[href*=\"opening\"]",
   "a[href*=\"posting\"]", "a[href*=\"apply\"]", "a[href*=\"career\"]",
   ".job-listing a", ".job-card a", ".careers-list a", ".opening a",
   "[class*=\"job\"] a", "[class*=\"position\"] a", "[class*=\"career\"] a",
   "[data-job] a", "a[class*=\"job\"]"]

/-- PositionExtractor._extract_job_url (src/position_extractor.py 143-151):
the href when it is truthy (non-empty) and does not start with
"javascript:", "mailto:" or "#". -/
def extract_job_url (element : Option String) : Option String :=
  match element with
  | none => none
  | some href =>
    if href ≠ "" ∧
        ¬ (pyStartsWith href "javascript:" ∨ pyStartsWith href "mailto:" ∨ pyStartsWith href "#")
    then some href else none

/-- PositionExtractor.find_job_links (src/position_extractor.py 109-125):
for each selector, query the page (an exception skips the selector); for
each element, the first valid extracted href is appended and, the list now
having length >= 1, immediately returned (the accumulator is always empty
when checked, so the `url not in found_urls` dedup test is vacuous and the
inner loop is the first hit over the elements). -/
def find_job_links (query : String → Option (List (Option String))) :
    List String → List String
  | [] => []
  | s :: rest =>
    match query s with
    | none => find_job_links query rest
    | some elements =>
      match firstHit extract_job_url elements with
      | some url => [url]
      | none => find_job_links query rest

/-- PositionExtractor.extract_first_position (src/position_extractor.py
61-87): navigate; on failure None; otherwise the first job link resolved
with make_absolute_url (urljoin) against the career page url, or None when
find_job_links is empty. -/
def extract_first_position (nav : Option (String → Option (List (Option String))))
    (urljoin : String → String → String) (selectors : List String)
    (career_page_url : String) : Option String :=
  match nav with
  | none => none
  | some query =>
    match find_job_links query selectors with
    | [] => none
    | url :: _ => some (urljoin career_page_url url)

/-! ## JobSourcePipeline (src/pipeline.py)

process_single_company and the run loop. The position-extraction step per
company is an oracle `extract : String -> ExtractOutcome`; raised models an
exception escaping extract_first_position (or any other exception inside the
try block after career discovery), caught by handle_error. -/

inductive ExtractOutcome where
  | found (url : String)
  | notFound
  | raised
deriving DecidableEq

/-- JobSourceResult (src/models.py 41-55); the datetime timestamp and float
processing_time are wall-clock data not referenced by any claim and are
omitted. -/
structure JobSourceResult where
  company_name : String
  career_page_url : String
  open_position_url : String
  source_tier : Nat
deriving DecidableEq

/-- CompanyData (src/models.py 12-31), the fields the pipeline loop uses. -/
structure CompanyData where
  company_name : String
  company_url : String
deriving DecidableEq

/-- JobSourcePipeline.process_single_company (src/pipeline.py 130-177):
find_career_page; on None increment_failure and stop; else extract the
first position; on None (or an exception, handled by handle_error,
src/pipeline.py 179-185) increment_failure and stop; else assemble a
JobSourceResult whose source_tier is _determine_tier() read from the
statistics as already updated by the finder. -/
def process_single_company (env : DiscoveryEnv)
    (extract : String → ExtractOutcome) (paths kw : List String)
    (cst : ClaudeState) (stats : ExecutionStatistics) (company : CompanyData) :
    Option JobSourceResult × ClaudeState × ExecutionStatistics :=
  match find_career_page env paths kw cst stats company.company_url with
  | (none, cst', stats', _) => (none, cst', increment_failure stats')
  | (some career_url, cst', stats', _) =>
    match extract career_url with
    | ExtractOutcome.raised => (none, cst', increment_failure stats')
    | ExtractOutcome.notFound => (none, cst', increment_failure stats')
    | ExtractOutcome.found position_url =>
      (some { company_name := company.company_name,
              career_page_url := career_url,
              open_position_url := position_url,
              source_tier := determine_tier stats' }, cst', stats')

/-- The per-company loop of JobSourcePipeline.run (src/pipeline.py 102-106):
process each company in order, collecting the assembled results and
threading the shared claude state and statistics. -/
def run_loop (env : DiscoveryEnv) (extract : String → ExtractOutcome)
    (paths kw : List String) :
    List CompanyData → ClaudeState → ExecutionStatistics →
    List JobSourceResult × ClaudeState × ExecutionStatistics
  | [], cst, stats => ([], cst, stats)
  | company :: rest, cst, stats =>
    match process_single_company env extract paths kw cst stats company with
    | (some r, cst', stats') =>
      let (rs, cst'', stats'') := run_loop env extract paths kw rest cst' stats'
      (r :: rs, cst'', stats'')
    | (none, cst', stats') => run_loop env extract paths kw rest cst' stats'

/-! ## Run-level input validation and the bound actually used
(src/pipeline.py 63-99 and 227-241) -/

/-- JobSourcePipeline._validate_inputs (src/pipeline.py 227-241): empty url
fails; url not starting with "http" fails; an out-of-range max_companies is
clamped into [1, 50] — but only the local parameter is reassigned, the
clamped value never leaves this function; finally config.validate() must
pass. -/
def validate_inputs (linkedin_url : String) (max_companies : Int)
    (config_valid : Bool) : Bool :=
  if linkedin_url = "" then false
  else if ¬ pyStartsWith linkedin_url "http" then false
  else
    let _clamped : Int :=
      if max_companies < 1 ∨ max_companies > 50 then
        max 1 (min 50 max_companies)
      else max_companies
    if ¬ config_valid then false else true

/-- Python list slicing l[:k] for an int bound k (negative k counts from the
end; Nat subtraction truncating at 0 matches the empty result for
len + k <= 0). -/
def pySliceTo (l : List α) (k : Int) : List α :=
  if 0 ≤ k then l.take k.toNat else l.take (l.length - k.natAbs)

/-- LinkedInFetcher.fetch_job_listings (src/linkedin_fetcher.py 43-66): the
Apify actor is the oracle `actor`, invoked with maxItems = min(limit,
max_items) where max_items = 50 (line 57); validate_api_response rejects an
empty item list, which (like an exception from the request) yields [].
The logging, cost-tracking and linkedin_api_calls side effects are not
referenced by any claim and are omitted. -/
def fetch_job_listings (actor : Int → List α) (limit : Int) : List α :=
  let raw := actor (min limit 50)
  if raw.isEmpty then [] else raw

/-- The company-selection part of JobSourcePipeline.run (src/pipeline.py
79-99): after _validate_inputs passes, fetch_job_listings is called with
limit = the ORIGINAL max_companies argument (the fetcher itself then caps
maxItems at min(limit, 50)), an empty fetch or extraction aborts, and the
extracted companies are truncated with companies[:max_companies], again the
original argument. -/
def run_selected_companies (actor : Int → List α) (extract : List α → List CompanyData)
    (linkedin_url : String) (max_companies : Int) (config_valid : Bool) :
    List CompanyData :=
  if ¬ validate_inputs linkedin_url max_companies config_valid then []
  else
    let raw_listings := fetch_job_listings actor max_companies
    if raw_listings.isEmpty then []
    else
      let companies := extract raw_listings
      if companies.isEmpty then []
      else pySliceTo companies max_companies

/-! ## Definitions derived from the embedding, used to state the claims -/

/-- Outcome of testing one path in Tier 1 wrapped as a single option, used
to state the first-hit property of find_via_direct_paths. -/
def tierSum (s : ExecutionStatistics) : Nat :=
  s.tier1_success + s.tier2_success + s.tier3_success

/-- Outcome of one selector in find_job_links: the first valid href among
the elements the selector yields; none when the selector raises, yields no
element, or yields only invalid hrefs. -/
def selector_hit (query : String → Option (List (Option String))) (s : String) :
    Option String :=
  match query s with
  | none => none
  | some elements => firstHit extract_job_url elements

/-- One anchor as tested by the all-anchors fallback scan of
scrape_homepage: keyword match, then resolve, then validate_url. -/
def fallback_anchor (urljoin : String → String → String) (isValid : String → Bool)
    (kw : List String) (base : String) (a : Anchor) : Option String :=
  if matches_career_keyword kw (toLowerStr a.text) a.href then
    (if isValid (urljoin base a.href) then some (urljoin base a.href) else none)
  else none

/-- Modelled from the spec: the container scan phase as the spec sentence
states it — anchors scoped to header/footer/navigation-like containers
only, in document order, first keyword match returned. The source's
check_footer_nav is compared against this definition. -/
def spec_container_scan (kw : List String) : List Elem → Option String
  | [] => none
  | Elem.cont k anchors :: rest =>
    if k = CKind.footer ∨ k = CKind.nav ∨ k = CKind.header then
      match scan_anchors kw anchors with
      | some href => some href
      | none => spec_container_scan kw rest
    else spec_container_scan kw rest
  | Elem.bare _ :: rest => spec_container_scan kw rest

/-- Modelled from the spec: the homepage-scrape tier as the spec states it,
identical to scrape_homepage except that the container phase is
spec_container_scan (document order over header/footer/nav containers). -/
def spec_scrape_homepage (get : String → Option (Nat × List Elem))
    (urljoin : String → String → String) (isValid : String → Bool)
    (kw : List String) (company_url : String) : Option String :=
  match get company_url with
  | none => none
  | some (status, doc) =>
    if status ≠ 200 then none
    else
      match spec_container_scan kw doc with
      | some href => some (urljoin company_url href)
      | none => scan_all_links urljoin isValid kw company_url (all_anchors doc)

/-! ## Concrete fixtures used by witnesses and counterexamples -/

/-- Concrete stand-in for urljoin: plain concatenation (the oracle is
arbitrary, only its outputs matter to the theorems). -/
def joinW : String → String → String := fun b r => b ++ r

/-- A fresh ClaudeFallback state: no calls made, limit 50, no key. -/
def cstFresh : ClaudeState :=
  { calls_this_month := 0, max_calls_per_month := 50, api_key := "", client_inited := false }

/-- A fresh ClaudeFallback state with a configured key. -/
def cstKey : ClaudeState :=
  { calls_this_month := 0, max_calls_per_month := 50, api_key := "test-key",
    client_inited := false }

/-- A ClaudeFallback state whose budget is exhausted (calls = ceiling) and
whose credential is also absent, to observe which precondition fires. -/
def cstExhausted : ClaudeState :=
  { calls_this_month := 50, max_calls_per_month := 50, api_key := "", client_inited := false }

/-- A well-formed model response. -/
def respOk : Resp := { content := some "https://acme.com/jobs" }

/-- A response whose content cannot be read (parse failure). -/
def respBad : Resp := { content := none }

/-- requests.head oracle answering 200 at the probed url itself. -/
def headHit : String → Option (Nat × String) := fun u => some (200, u)

/-- Environment in which Tier 1 always hits its first probed path. -/
def envHit1 : DiscoveryEnv :=
  { head := headHit, get := fun _ => none, urljoin := joinW, isValid := fun _ => true,
    normalize := id, api := fun _ => none, hasClaude := false }

/-- requests.head oracle answering 200 only for the one careers url of
company A. -/
def headAB : String → Option (Nat × String) :=
  fun u => if u = "https://a.com/careers" then some (200, u) else none

/-- Homepage document of company B: one bare careers anchor. -/
def docB : List Elem := [Elem.bare { href := "/careers", text := "Careers" }]

/-- requests.get oracle serving company B's homepage. -/
def getB : String → Option (Nat × List Elem) :=
  fun u => if u = "https://b.com" then some (200, docB) else none

/-- Environment in which company A succeeds via Tier 1 and company B via
Tier 2. -/
def envAB : DiscoveryEnv :=
  { head := headAB, get := getB, urljoin := joinW, isValid := fun _ => true,
    normalize := id, api := fun _ => none, hasClaude := false }

def companyA : CompanyData := { company_name := "A", company_url := "https://a.com" }

def companyB : CompanyData := { company_name := "B", company_url := "https://b.com" }

/-- Position-extraction oracle finding no position. -/
def extractNone : String → ExtractOutcome := fun _ => ExtractOutcome.notFound

/-- Position-extraction oracle finding one position. -/
def extractFound : String → ExtractOutcome :=
  fun _ => ExtractOutcome.found "https://a.com/careers/123"

/-- Homepage with a matching anchor in a nav container placed before a
footer container that also holds a matching anchor. -/
def docNavFooter : List Elem :=
  [Elem.cont CKind.nav [{ href := "/na", text := "Careers" }],
   Elem.cont CKind.footer [{ href := "/fa", text := "Jobs" }]]

def getNavFooter : String → Option (Nat × List Elem) := fun _ => some (200, docNavFooter)

/-- Homepage whose only matching anchor sits in a header container. -/
def docHeaderOnly : List Elem :=
  [Elem.cont CKind.header [{ href := "zz", text := "Careers" }]]

def getHeaderOnly : String → Option (Nat × List Elem) := fun _ => some (200, docHeaderOnly)

/-- Page oracle for position extraction: the first selector yields one
banned href then a good one; all other selectors yield nothing. -/
def queryW : String → Option (List (Option String)) :=
  fun s => if s = "a[href*=\"job\"]" then
    some [some "javascript:void(0)", some "/jobs/1"] else some []

/-- Apify actor oracle honoring the requested maxItems with 60 items
available (and returning nothing for a non-positive maxItems), used
against the run-level clamping claim. -/
def actorC3 : Int → List CompanyData :=
  fun k => (List.range (min k.toNat 60)).map
    (fun _ => { company_name := "c", company_url := "https://c.com" })

/-! # Theorems -/

/-- C3: _validate_inputs claims to clamp max_companies into [1, 50] — its
log message says "clamping to 1-50" — but it reassigns only its local
parameter, so the clamped value never reaches run. On the high side the
behavior nevertheless matches the claim, because fetch_job_listings itself
caps maxItems at min(limit, 50): with 60 items upstream, max_companies =
100 fetches 50 items and processes exactly the same 50 companies as
max_companies = 50. On the low side nothing compensates for the dead
clamp: max_companies = 0 passes validation, the fetch is issued with
maxItems = min(0, 50) = 0, and the run aborts on the empty result,
processing no company — instead of behaving as max_companies = 1, which
processes one. -/
theorem C3_clamp_never_applied :
    validate_inputs "https://linkedin.com/jobs" 100 true = true
    ∧ (run_selected_companies actorC3 id "https://linkedin.com/jobs" 100 true).length = 50
    ∧ run_selected_companies actorC3 id "https://linkedin.com/jobs" 100 true
        = run_selected_companies actorC3 id "https://linkedin.com/jobs" 50 true
    ∧ validate_inputs "https://linkedin.com/jobs" 0 true = true
    ∧ fetch_job_listings actorC3 (0 : Int) = ([] : List CompanyData)
    ∧ run_selected_companies actorC3 id "https://linkedin.com/jobs" 0 true = []
    ∧ (run_selected_companies actorC3 id "https://linkedin.com/jobs" 1 true).length = 1
    ∧ run_selected_companies actorC3 id "https://linkedin.com/jobs" 0 true
        ≠ run_selected_companies actorC3 id "https://linkedin.com/jobs" 1 true := by
  refine ⟨?_, ?_, ?_, ?_, ?_, ?_, ?_, ?_⟩ <;> decide

/-- C4: once calls_this_month equals the ceiling, find_career_page_ai
returns None with the client state, the statistics and the budget counter
untouched, emitting only the limit warning: no request is dispatched, no
client constructed, no prompt built, and the credential check is never
reached (the equality holds for every api_key, including an absent one). -/
theorem C4_budget_exhausted_no_request (st : ClaudeState)
    (stats : ExecutionStatistics) (api : Option Resp)
    (h : st.calls_this_month = st.max_calls_per_month) :
    find_career_page_ai api st stats = (none, st, stats, [CFEvent.limitWarn])
    ∧ CFEvent.apiAttempt ∉ (find_career_page_ai api st stats).2.2.2
    ∧ CFEvent.clientInit ∉ (find_career_page_ai api st stats).2.2.2
    ∧ CFEvent.promptBuilt ∉ (find_career_page_ai api st stats).2.2.2
    ∧ CFEvent.noKeyWarn ∉ (find_career_page_ai api st stats).2.2.2 := by
  have hlim : check_monthly_limit st = false := by
    simp [check_monthly_limit, h]
  have heq : find_career_page_ai api st stats = (none, st, stats, [CFEvent.limitWarn]) := by
    simp [find_career_page_ai, hlim]
  refine ⟨heq, ?_, ?_, ?_, ?_⟩ <;> rw [heq] <;> simp

/-- C4 witness: with the budget exhausted and the credential also absent,
the call returns absent with only the limit warning — the budget check
fired first; nothing was dispatched or constructed. -/
theorem C4_budget_exhausted_no_request_witness :
    find_career_page_ai (some respOk) cstExhausted initStats
      = (none, cstExhausted, initStats, [CFEvent.limitWarn])
    ∧ cstExhausted.api_key = "" :=
  ⟨(C4_budget_exhausted_no_request cstExhausted initStats (some respOk) rfl).1, rfl⟩

/-- C5 counterexample: with the budget available and a key configured, a
transport error (the messages.create call raising, modelled by the api
outcome none) dispatches the request (apiAttempt is emitted) yet leaves
calls_this_month at 0 and claude_api_calls at 0 — the counter is NOT
incremented on a raised call, contradicting the claim that dispatch alone
increments it. -/
theorem C5_transport_error_not_counted :
    (find_career_page_ai none cstKey initStats).2.1.calls_this_month = 0
    ∧ (find_career_page_ai none cstKey initStats).2.2.1.claude_api_calls = 0
    ∧ CFEvent.apiAttempt ∈ (find_career_page_ai none cstKey initStats).2.2.2
    ∧ (find_career_page_ai none cstKey initStats).2.1.calls_this_month
        ≠ cstKey.calls_this_month + 1 := by
  decide

/-- C5 amended: once the preconditions pass and the request is dispatched,
the call counter (calls_this_month and the shared statistics'
claude_api_calls) is incremented exactly once if and only if the API call
returns — regardless of whether the response parses — and is not
incremented when the transport/API call raises. -/
theorem C5_counter_counts_returned_requests (st : ClaudeState)
    (stats : ExecutionStatistics) (api : Option Resp)
    (hbudget : st.calls_this_month < st.max_calls_per_month)
    (hkey : st.api_key ≠ "") :
    (∀ resp, api = some resp →
      (find_career_page_ai api st stats).2.1.calls_this_month = st.calls_this_month + 1
      ∧ (find_career_page_ai api st stats).2.2.1.claude_api_calls
          = stats.claude_api_calls + 1)
    ∧ (api = none →
      (find_career_page_ai api st stats).2.1.calls_this_month = st.calls_this_month
      ∧ (find_career_page_ai api st stats).2.2.1.claude_api_calls
          = stats.claude_api_calls)
    ∧ CFEvent.apiAttempt ∈ (find_career_page_ai api st stats).2.2.2 := by
  have hlim : check_monthly_limit st = true := by
    simp [check_monthly_limit, hbudget]
  refine ⟨?_, ?_, ?_⟩
  · rintro resp rfl
    constructor <;> simp [find_career_page_ai, hlim, hkey]
  · rintro rfl
    constructor <;> simp [find_career_page_ai, hlim, hkey]
  · cases api <;> simp [find_career_page_ai, hlim, hkey]

/-- C5 amended witness: a dispatched request whose response fails to parse
(content unreadable) still bumps both counters from 0 to 1, and the tier
still reports absent. -/
theorem C5_counter_counts_returned_requests_witness :
    (find_career_page_ai (some respBad) cstKey initStats).2.1.calls_this_month = 1
    ∧ (find_career_page_ai (some respBad) cstKey initStats).2.2.1.claude_api_calls = 1
    ∧ (find_career_page_ai (some respBad) cstKey initStats).1 = none := by
  have h := C5_counter_counts_returned_requests cstKey initStats (some respBad)
    (by decide) (by decide)
  exact ⟨(h.1 respBad rfl).1, (h.1 respBad rfl).2, by decide⟩

/-! ## Shared characterization lemmas for the scanning loops -/

theorem find_via_direct_paths_eq_firstHit (head : String → Option (Nat × String))
    (kw : List String) (url : String) (paths : List String) :
    find_via_direct_paths head kw url paths = firstHit (pathHit head kw url) paths := by
  induction paths with
  | nil => rfl
  | cons p rest ih =>
    simp only [find_via_direct_paths, firstHit, pathHit]
    cases head (rstripSlash url ++ p) with
    | none => exact ih
    | some sf =>
      obtain ⟨status, finalUrl⟩ := sf
      by_cases hv : status = 200 ∧ is_valid_career_page kw finalUrl <;> simp [hv, ih]

theorem find_job_links_eq_firstHit (query : String → Option (List (Option String)))
    (selectors : List String) :
    find_job_links query selectors =
      (match firstHit (selector_hit query) selectors with
       | some r => [r]
       | none => []) := by
  induction selectors with
  | nil => rfl
  | cons s rest ih =>
    simp only [find_job_links, firstHit, selector_hit]
    cases hq : query s with
    | none => simpa using ih
    | some elements =>
      rcases hfh : firstHit extract_job_url elements with _ | url <;> simp [hfh, ih]

theorem extract_job_url_some (element : Option String) (u : String)
    (h : extract_job_url element = some u) :
    u ≠ "" ∧ pyStartsWith u "javascript:" = false ∧ pyStartsWith u "mailto:" = false
      ∧ pyStartsWith u "#" = false := by
  cases element with
  | none => simp [extract_job_url] at h
  | some href =>
    simp only [extract_job_url] at h
    split_ifs at h with hc
    cases h
    refine ⟨hc.1, ?_, ?_, ?_⟩ <;>
      simp only [Bool.eq_false_iff] <;> intro hb <;> exact hc.2 (by simp [hb])

/-! ## C6 -/

/-- C6: Tier 1 equals the first hit, in configured path order, of the probe
that accepts exactly a 200 response whose final resolved url passes the
career-keyword check; a network error on a path (head = none) makes that
path a non-hit, silently skipped; exhausting all paths yields None; with
paths ["/careers", "/jobs"] and a 200 career-keyword answer on "/careers",
"/careers" wins. -/
theorem C6_direct_path_first_hit (head : String → Option (Nat × String))
    (kw : List String) (url : String) (paths : List String) :
    (find_via_direct_paths head kw url paths = firstHit (pathHit head kw url) paths)
    ∧ ((∀ p ∈ paths, pathHit head kw url p = none) →
        find_via_direct_paths head kw url paths = none)
    ∧ (∀ pre p post r, paths = pre ++ p :: post →
        (∀ q ∈ pre, pathHit head kw url q = none) →
        pathHit head kw url p = some r →
        find_via_direct_paths head kw url paths = some r)
    ∧ (∀ u₁, head (rstripSlash url ++ "/careers") = some (200, u₁) →
        is_valid_career_page kw u₁ = true →
        find_via_direct_paths head kw url ["/careers", "/jobs"] = some u₁) := by
  refine ⟨find_via_direct_paths_eq_firstHit head kw url paths, ?_, ?_, ?_⟩
  · intro h
    rw [find_via_direct_paths_eq_firstHit]
    exact (firstHit_eq_none_iff _ _).mpr h
  · intro pre p post r hsplit hpre hp
    rw [find_via_direct_paths_eq_firstHit, hsplit]
    exact firstHit_of_head_fires _ pre post p r hpre hp
  · intro u₁ hhead hvalid
    simp [find_via_direct_paths, hhead, hvalid]

/-- C6 witness: a probe oracle answering 200 at every probed url makes
"/careers" win with its resolved url, paths being exhausted in order. -/
theorem C6_direct_path_first_hit_witness :
    find_via_direct_paths headHit careerKeywords "https://acme.com" ["/careers", "/jobs"]
      = some "https://acme.com/careers" :=
  (C6_direct_path_first_hit headHit careerKeywords "https://acme.com"
    ["/careers", "/jobs"]).2.2.2 "https://acme.com/careers" (by decide) (by decide)

/-! ## C8 -/

/-- C8: position extraction tries the selector list in order; the result is
the first valid href of the first selector producing one, resolved with
urljoin against the career page url; hrefs starting with "javascript:",
"mailto:" or "#" are never returned; selectors after the winning one cannot
affect the result; no valid href across all selectors yields None. -/
theorem C8_position_extraction_first_match
    (query : String → Option (List (Option String)))
    (urljoin : String → String → String) (selectors : List String)
    (career_url : String) :
    (extract_first_position (some query) urljoin selectors career_url =
      (match firstHit (selector_hit query) selectors with
       | some r => some (urljoin career_url r)
       | none => none))
    ∧ (∀ u ∈ find_job_links query selectors,
        u ≠ "" ∧ pyStartsWith u "javascript:" = false
        ∧ pyStartsWith u "mailto:" = false ∧ pyStartsWith u "#" = false)
    ∧ (∀ pre s post post' r, (∀ q ∈ pre, selector_hit query q = none) →
        selector_hit query s = some r →
        find_job_links query (pre ++ s :: post) = [r]
        ∧ find_job_links query (pre ++ s :: post)
            = find_job_links query (pre ++ s :: post'))
    ∧ ((∀ s ∈ selectors, selector_hit query s = none) →
        extract_first_position (some query) urljoin selectors career_url = none) := by
  have hfjl := find_job_links_eq_firstHit query
  refine ⟨?_, ?_, ?_, ?_⟩
  · simp only [extract_first_position, hfjl]
    cases firstHit (selector_hit query) selectors <;> rfl
  · intro u hu
    rw [hfjl] at hu
    cases hfh : firstHit (selector_hit query) selectors with
    | none => rw [hfh] at hu; simp at hu
    | some r =>
      rw [hfh] at hu
      simp only [List.mem_singleton] at hu
      subst hu
      obtain ⟨s, _, hs⟩ := firstHit_isSome_mem _ _ _ hfh
      simp only [selector_hit] at hs
      cases hq : query s with
      | none => rw [hq] at hs; cases hs
      | some elements =>
        rw [hq] at hs
        obtain ⟨e, _, he⟩ := firstHit_isSome_mem _ _ _ hs
        exact extract_job_url_some e u he
  · intro pre s post post' r hpre hs
    have hwin : ∀ q, find_job_links query (pre ++ s :: q) = [r] := by
      intro q
      rw [hfjl, firstHit_of_head_fires _ pre q s r hpre hs]
    exact ⟨hwin post, (hwin post).trans (hwin post').symm⟩
  · intro hnone
    simp only [extract_first_position, hfjl, (firstHit_eq_none_iff _ _).mpr hnone]

/-- C8 witness: the first selector yields a banned "javascript:" href then
"/jobs/1"; the banned href is skipped, "/jobs/1" wins, is resolved against
the career page url, and later selectors are irrelevant. -/
theorem C8_position_extraction_first_match_witness :
    find_job_links queryW jobSelectors = ["/jobs/1"]
    ∧ extract_first_position (some queryW) joinW jobSelectors "https://acme.com/careers"
        = some "https://acme.com/careers/jobs/1" := by
  have h := C8_position_extraction_first_match queryW joinW jobSelectors
    "https://acme.com/careers"
  have hwin := (h.2.2.1 [] "a[href*=\"job\"]" jobSelectors.tail jobSelectors.tail
    "/jobs/1" (by intro q hq; simp at hq) (by decide)).1
  exact ⟨by simpa using hwin, by rw [h.1]; decide⟩

/-! ## Shared lemmas for the homepage-scrape loops -/

theorem scan_anchors_eq_firstHit (kw : List String) (l : List Anchor) :
    scan_anchors kw l = firstHit (anchorMatch kw) l := by
  induction l with
  | nil => rfl
  | cons a rest ih =>
    simp only [scan_anchors, firstHit, anchorMatch]
    by_cases hm : matches_career_keyword kw (toLowerStr a.text) a.href = true <;>
      simp [hm, ih]

theorem scan_containers_eq_firstHit (kw : List String) (cs : List (List Anchor)) :
    scan_containers kw cs = firstHit (anchorMatch kw) cs.flatten := by
  induction cs with
  | nil => rfl
  | cons c rest ih =>
    simp only [scan_containers, List.flatten_cons, firstHit_append,
      scan_anchors_eq_firstHit]
    cases firstHit (anchorMatch kw) c <;> simp [ih]

theorem check_footer_nav_eq_firstHit (kw : List String) (doc : List Elem) :
    check_footer_nav kw doc =
      firstHit (anchorMatch kw)
        ((find_all_cont CKind.footer doc).flatten
          ++ (find_all_cont CKind.nav doc).flatten) := by
  simp only [check_footer_nav, scan_containers_eq_firstHit, firstHit_append]
  cases firstHit (anchorMatch kw) (find_all_cont CKind.footer doc).flatten <;> simp

theorem scan_all_links_eq_firstHit (urljoin : String → String → String)
    (isValid : String → Bool) (kw : List String) (base : String) (l : List Anchor) :
    scan_all_links urljoin isValid kw base l =
      firstHit (fallback_anchor urljoin isValid kw base) l := by
  induction l with
  | nil => rfl
  | cons a rest ih =>
    simp only [scan_all_links, firstHit, fallback_anchor]
    by_cases hm : matches_career_keyword kw (toLowerStr a.text) a.href = true
    · by_cases hv : isValid (urljoin base a.href) = true <;> simp [hm, hv, ih]
    · simp [hm, ih]

/-! ## C7 -/

/-- C7 counterexample: on a homepage whose nav container (with a matching
anchor "/na") precedes its footer container (matching anchor "/fa"), the
source returns the footer anchor — check_footer_nav scans all footer
containers before any nav container — while the claim's document-order scan
(spec_scrape_homepage, modelled from the spec sentence) returns the nav
anchor; and a homepage whose only matching anchor sits in a header
container produces None in the source (header containers are not specially
scanned; the fallback requires validate_url, here false) while the claim's
container scan returns it. -/
theorem C7_container_scan_order_counterexample :
    scrape_homepage getNavFooter joinW (fun _ => true) careerKeywords "https://x.com"
      = some "https://x.com/fa"
    ∧ spec_scrape_homepage getNavFooter joinW (fun _ => true) careerKeywords "https://x.com"
      = some "https://x.com/na"
    ∧ scrape_homepage getNavFooter joinW (fun _ => true) careerKeywords "https://x.com"
      ≠ spec_scrape_homepage getNavFooter joinW (fun _ => true) careerKeywords "https://x.com"
    ∧ scrape_homepage getHeaderOnly joinW (fun _ => false) careerKeywords "https://y.com"
      = none
    ∧ spec_scrape_homepage getHeaderOnly joinW (fun _ => false) careerKeywords "https://y.com"
      = some "https://y.comzz"
    ∧ scrape_homepage getHeaderOnly joinW (fun _ => false) careerKeywords "https://y.com"
      ≠ spec_scrape_homepage getHeaderOnly joinW (fun _ => false) careerKeywords
          "https://y.com" := by
  refine ⟨?_, ?_, ?_, ?_, ?_, ?_⟩ <;> decide

/-- C7 amended: on a 200 homepage the tier first scans anchors of footer
containers (all footers, in document order), then anchors of nav
containers, returning the first keyword match resolved to an absolute URL
with no further validity check; header containers receive no dedicated
scan; only if no footer/nav anchor matches does it scan every anchor on
the page in document order, returning the first keyword match whose
resolved URL passes the structural validate_url check; no match anywhere,
a non-200 status, or a fetch error yields None. -/
theorem C7_scrape_homepage_footer_then_nav (get : String → Option (Nat × List Elem))
    (urljoin : String → String → String) (isValid : String → Bool)
    (kw : List String) (url : String) :
    (∀ doc, check_footer_nav kw doc =
      firstHit (anchorMatch kw)
        ((find_all_cont CKind.footer doc).flatten
          ++ (find_all_cont CKind.nav doc).flatten))
    ∧ (∀ doc, find_all_cont CKind.footer doc = [] →
        find_all_cont CKind.nav doc = [] → check_footer_nav kw doc = none)
    ∧ (get url = none → scrape_homepage get urljoin isValid kw url = none)
    ∧ (∀ status doc, get url = some (status, doc) → status ≠ 200 →
        scrape_homepage get urljoin isValid kw url = none)
    ∧ (∀ doc href, get url = some (200, doc) → check_footer_nav kw doc = some href →
        scrape_homepage get urljoin isValid kw url = some (urljoin url href))
    ∧ (∀ doc, get url = some (200, doc) → check_footer_nav kw doc = none →
        scrape_homepage get urljoin isValid kw url =
          firstHit (fallback_anchor urljoin isValid kw url) (all_anchors doc)) := by
  refine ⟨check_footer_nav_eq_firstHit kw, ?_, ?_, ?_, ?_, ?_⟩
  · intro doc hf hn
    rw [check_footer_nav_eq_firstHit, hf, hn]
    rfl
  · intro hget
    simp [scrape_homepage, hget]
  · intro status doc hget hstatus
    simp [scrape_homepage, hget, hstatus]
  · intro doc href hget hcfn
    simp [scrape_homepage, hget, hcfn]
  · intro doc hget hcfn
    simp [scrape_homepage, hget, hcfn, scan_all_links_eq_firstHit]

/-- C7 amended witness: on the nav-before-footer homepage the footer anchor
"/fa" wins and is resolved against the homepage url. -/
theorem C7_scrape_homepage_footer_then_nav_witness :
    scrape_homepage getNavFooter joinW (fun _ => true) careerKeywords "https://x.com"
      = some "https://x.com/fa" :=
  (C7_scrape_homepage_footer_then_nav getNavFooter joinW (fun _ => true) careerKeywords
    "https://x.com").2.2.2.2.1 docNavFooter "/fa" (by decide) (by decide)

/-! ## C1 -/

/-- C1: find_career_page tries the tiers in strict ascending order and the
first success short-circuits: the instrumented invocation list is always
one of [1], [1, 2], [1, 2, 3] (strictly ascending); a Tier 1 hit returns it
with only tier 1 invoked; a Tier 2 hit after a Tier 1 miss returns it with
tiers 1, 2 invoked and tier 3 never attempted; tier 2 is only invoked after
tier 1 returned None, and tier 3 only after both lower tiers returned None
and a fallback is configured. -/
theorem C1_tier_short_circuit (env : DiscoveryEnv) (paths kw : List String)
    (cst : ClaudeState) (stats : ExecutionStatistics) (company_url : String) :
    List.Chain' (· < ·) (find_career_page env paths kw cst stats company_url).2.2.2
    ∧ ((find_career_page env paths kw cst stats company_url).2.2.2 = [1]
       ∨ (find_career_page env paths kw cst stats company_url).2.2.2 = [1, 2]
       ∨ (find_career_page env paths kw cst stats company_url).2.2.2 = [1, 2, 3])
    ∧ (∀ r, find_via_direct_paths env.head kw (env.normalize company_url) paths = some r →
        (find_career_page env paths kw cst stats company_url).1 = some r
        ∧ (find_career_page env paths kw cst stats company_url).2.2.2 = [1])
    ∧ (∀ r, find_via_direct_paths env.head kw (env.normalize company_url) paths = none →
        scrape_homepage env.get env.urljoin env.isValid kw (env.normalize company_url)
          = some r →
        (find_career_page env paths kw cst stats company_url).1 = some r
        ∧ (find_career_page env paths kw cst stats company_url).2.2.2 = [1, 2])
    ∧ ((2 : Nat) ∈ (find_career_page env paths kw cst stats company_url).2.2.2 →
        find_via_direct_paths env.head kw (env.normalize company_url) paths = none)
    ∧ ((3 : Nat) ∈ (find_career_page env paths kw cst stats company_url).2.2.2 →
        find_via_direct_paths env.head kw (env.normalize company_url) paths = none
        ∧ scrape_homepage env.get env.urljoin env.isValid kw (env.normalize company_url)
            = none
        ∧ env.hasClaude = true) := by
  rcases ht1 : find_via_direct_paths env.head kw (env.normalize company_url) paths
    with _ | r1
  · rcases ht2 : scrape_homepage env.get env.urljoin env.isValid kw
      (env.normalize company_url) with _ | r2
    · cases hc : env.hasClaude
      · have heq : find_career_page env paths kw cst stats company_url
            = (none, cst, stats, [1, 2]) := by
          simp [find_career_page, ht1, ht2, hc]
        rw [heq]
        refine ⟨by norm_num [List.chain'_cons], by simp, ?_, ?_, fun _ => rfl, ?_⟩
        · exact fun r h => Option.noConfusion h
        · exact fun r _ h2 => Option.noConfusion h2
        · intro h3
          simp at h3
      · rcases hai : find_career_page_ai (env.api (env.normalize company_url)) cst stats
          with ⟨res, cst', stats', ev⟩
        have heq : (find_career_page env paths kw cst stats company_url).2.2.2
            = [1, 2, 3] := by
          cases res <;> simp [find_career_page, ht1, ht2, hc, hai]
        rw [heq]
        exact ⟨by norm_num [List.chain'_cons], by simp,
          fun r h => Option.noConfusion h, fun r _ h2 => Option.noConfusion h2,
          fun _ => rfl, fun _ => ⟨rfl, rfl, rfl⟩⟩
    · have heq : find_career_page env paths kw cst stats company_url
          = (some r2, cst, increment_success 2 stats, [1, 2]) := by
        simp [find_career_page, ht1, ht2]
      rw [heq]
      refine ⟨by norm_num [List.chain'_cons], by simp, ?_, ?_, fun _ => rfl, ?_⟩
      · exact fun r h => Option.noConfusion h
      · intro r _ h2
        injection h2 with h2
        subst h2
        exact ⟨rfl, rfl⟩
      · intro h3
        simp at h3
  · have heq : find_career_page env paths kw cst stats company_url
        = (some r1, cst, increment_success 1 stats, [1]) := by
      simp [find_career_page, ht1]
    rw [heq]
    refine ⟨by simp, by simp, ?_, ?_, ?_, ?_⟩
    · intro r h
      injection h with h
      subst h
      exact ⟨rfl, rfl⟩
    · exact fun r h1 => Option.noConfusion h1
    · intro h2
      simp at h2
    · intro h3
      simp at h3

/-- C1 witness: in an environment whose probe answers 200 everywhere, Tier 1
wins with the first configured path and the invocation trace is exactly
[1]: tiers 2 and 3 were never attempted. -/
theorem C1_tier_short_circuit_witness :
    (find_career_page envHit1 careerPaths careerKeywords cstFresh initStats
      "https://acme.com").1 = some "https://acme.com/careers"
    ∧ (find_career_page envHit1 careerPaths careerKeywords cstFresh initStats
        "https://acme.com").2.2.2 = [1] :=
  (C1_tier_short_circuit envHit1 careerPaths careerKeywords cstFresh initStats
    "https://acme.com").2.2.1 "https://acme.com/careers" (by decide)

/-! ## Shared lemmas on the statistics counters -/

theorem increment_success_fields (t : Nat) (s : ExecutionStatistics) :
    (increment_success t s).total_processed = s.total_processed + 1
    ∧ (increment_success t s).successful = s.successful + 1
    ∧ (increment_success t s).failed = s.failed := by
  simp only [increment_success]
  split_ifs <;> simp

theorem increment_success_tierSum (t : Nat) (h : t = 1 ∨ t = 2 ∨ t = 3)
    (s : ExecutionStatistics) :
    tierSum (increment_success t s) = tierSum s + 1 := by
  rcases h with h | h | h <;> subst h <;> simp [increment_success, tierSum] <;> omega

theorem increment_success_tierCount (t : Nat) (h : t = 1 ∨ t = 2 ∨ t = 3)
    (s : ExecutionStatistics) :
    tierCount (increment_success t s) t = tierCount s t + 1
    ∧ ∀ u, u ≠ t → tierCount (increment_success t s) u = tierCount s u := by
  rcases h with h | h | h <;> subst h <;>
    refine ⟨by simp [increment_success, tierCount], ?_⟩ <;>
    intro u hu <;> rcases u with _ | _ | _ | _ | u <;>
    simp_all [increment_success, tierCount]

theorem increment_failure_fields (s : ExecutionStatistics) :
    (increment_failure s).total_processed = s.total_processed + 1
    ∧ (increment_failure s).successful = s.successful
    ∧ (increment_failure s).failed = s.failed + 1
    ∧ tierSum (increment_failure s) = tierSum s
    ∧ ∀ u, tierCount (increment_failure s) u = tierCount s u := by
  refine ⟨rfl, rfl, rfl, rfl, ?_⟩
  intro u
  rcases u with _ | _ | _ | _ | u <;> rfl

theorem find_career_page_ai_preserves_run_counters (api : Option Resp)
    (st : ClaudeState) (stats : ExecutionStatistics) :
    ((find_career_page_ai api st stats).2.2.1).total_processed = stats.total_processed
    ∧ ((find_career_page_ai api st stats).2.2.1).successful = stats.successful
    ∧ ((find_career_page_ai api st stats).2.2.1).failed = stats.failed
    ∧ tierSum ((find_career_page_ai api st stats).2.2.1) = tierSum stats := by
  cases api <;> simp only [find_career_page_ai] <;> split_ifs <;>
    simp [tierSum]

theorem find_career_page_stats_delta (env : DiscoveryEnv) (paths kw : List String)
    (cst : ClaudeState) (stats : ExecutionStatistics) (company_url : String) :
    ((find_career_page env paths kw cst stats company_url).1 = none
      ∧ ((find_career_page env paths kw cst stats company_url).2.2.1).total_processed
          = stats.total_processed
      ∧ ((find_career_page env paths kw cst stats company_url).2.2.1).successful
          = stats.successful
      ∧ ((find_career_page env paths kw cst stats company_url).2.2.1).failed
          = stats.failed
      ∧ tierSum ((find_career_page env paths kw cst stats company_url).2.2.1)
          = tierSum stats)
    ∨ ((∃ r, (find_career_page env paths kw cst stats company_url).1 = some r)
      ∧ ((find_career_page env paths kw cst stats company_url).2.2.1).total_processed
          = stats.total_processed + 1
      ∧ ((find_career_page env paths kw cst stats company_url).2.2.1).successful
          = stats.successful + 1
      ∧ ((find_career_page env paths kw cst stats company_url).2.2.1).failed
          = stats.failed
      ∧ tierSum ((find_career_page env paths kw cst stats company_url).2.2.1)
          = tierSum stats + 1) := by
  rcases ht1 : find_via_direct_paths env.head kw (env.normalize company_url) paths
    with _ | r1
  · rcases ht2 : scrape_homepage env.get env.urljoin env.isValid kw
      (env.normalize company_url) with _ | r2
    · cases hc : env.hasClaude
      · left
        have heq : find_career_page env paths kw cst stats company_url
            = (none, cst, stats, [1, 2]) := by
          simp [find_career_page, ht1, ht2, hc]
        rw [heq]
        exact ⟨rfl, rfl, rfl, rfl, rfl⟩
      · rcases hai : find_career_page_ai (env.api (env.normalize company_url)) cst stats
          with ⟨res, cst', stats', ev⟩
        have hst := find_career_page_ai_preserves_run_counters
          (env.api (env.normalize company_url)) cst stats
        rw [hai] at hst
        dsimp only [] at hst
        cases res with
        | none =>
          left
          have heq : find_career_page env paths kw cst stats company_url
              = (none, cst', stats', [1, 2, 3]) := by
            simp [find_career_page, ht1, ht2, hc, hai]
          rw [heq]
          exact ⟨rfl, hst.1, hst.2.1, hst.2.2.1, hst.2.2.2⟩
        | some r =>
          right
          have heq : find_career_page env paths kw cst stats company_url
              = (some r, cst', increment_success 3 stats', [1, 2, 3]) := by
            simp [find_career_page, ht1, ht2, hc, hai]
          rw [heq]
          have hf := increment_success_fields 3 stats'
          have hts := increment_success_tierSum 3 (by simp) stats'
          refine ⟨⟨r, rfl⟩, ?_, ?_, ?_, ?_⟩ <;> dsimp only [] <;> omega
    · right
      have heq : find_career_page env paths kw cst stats company_url
          = (some r2, cst, increment_success 2 stats, [1, 2]) := by
        simp [find_career_page, ht1, ht2]
      rw [heq]
      have hf := increment_success_fields 2 stats
      have hts := increment_success_tierSum 2 (by simp) stats
      exact ⟨⟨r2, rfl⟩, hf.1, hf.2.1, hf.2.2, hts⟩
  · right
    have heq : find_career_page env paths kw cst stats company_url
        = (some r1, cst, increment_success 1 stats, [1]) := by
      simp [find_career_page, ht1]
    rw [heq]
    have hf := increment_success_fields 1 stats
    have hts := increment_success_tierSum 1 (by simp) stats
    exact ⟨⟨r1, rfl⟩, hf.1, hf.2.1, hf.2.2, hts⟩

theorem process_single_company_stats_delta (env : DiscoveryEnv)
    (extract : String → ExtractOutcome) (paths kw : List String)
    (cst : ClaudeState) (stats : ExecutionStatistics) (company : CompanyData) :
    (((process_single_company env extract paths kw cst stats company).2.2).total_processed
        = stats.total_processed + 1
      ∧ ((process_single_company env extract paths kw cst stats company).2.2).successful
          = stats.successful
      ∧ ((process_single_company env extract paths kw cst stats company).2.2).failed
          = stats.failed + 1
      ∧ tierSum ((process_single_company env extract paths kw cst stats company).2.2)
          = tierSum stats)
    ∨ (((process_single_company env extract paths kw cst stats company).2.2).total_processed
        = stats.total_processed + 2
      ∧ ((process_single_company env extract paths kw cst stats company).2.2).successful
          = stats.successful + 1
      ∧ ((process_single_company env extract paths kw cst stats company).2.2).failed
          = stats.failed + 1
      ∧ tierSum ((process_single_company env extract paths kw cst stats company).2.2)
          = tierSum stats + 1)
    ∨ (((process_single_company env extract paths kw cst stats company).2.2).total_processed
        = stats.total_processed + 1
      ∧ ((process_single_company env extract paths kw cst stats company).2.2).successful
          = stats.successful + 1
      ∧ ((process_single_company env extract paths kw cst stats company).2.2).failed
          = stats.failed
      ∧ tierSum ((process_single_company env extract paths kw cst stats company).2.2)
          = tierSum stats + 1) := by
  have hdelta := find_career_page_stats_delta env paths kw cst stats company.company_url
  rcases hfc : find_career_page env paths kw cst stats company.company_url
    with ⟨res, cst', stats', inv⟩
  rw [hfc] at hdelta
  dsimp only [] at hdelta
  cases res with
  | none =>
    left
    have heq : process_single_company env extract paths kw cst stats company
        = (none, cst', increment_failure stats') := by
      simp [process_single_company, hfc]
    rw [heq]
    rcases hdelta with ⟨_, h⟩ | ⟨⟨r, hr⟩, _⟩
    · have hif := increment_failure_fields stats'
      refine ⟨?_, ?_, ?_, ?_⟩ <;> dsimp only [] <;> omega
    · exact absurd hr (by simp)
  | some cu =>
    rcases hdelta with ⟨hnone, _⟩ | ⟨_, hd⟩
    · exact absurd hnone (by simp)
    cases hex : extract cu with
    | raised =>
      right; left
      have heq : process_single_company env extract paths kw cst stats company
          = (none, cst', increment_failure stats') := by
        simp [process_single_company, hfc, hex]
      rw [heq]
      have hif := increment_failure_fields stats'
      refine ⟨?_, ?_, ?_, ?_⟩ <;> dsimp only [] <;> omega
    | notFound =>
      right; left
      have heq : process_single_company env extract paths kw cst stats company
          = (none, cst', increment_failure stats') := by
        simp [process_single_company, hfc, hex]
      rw [heq]
      have hif := increment_failure_fields stats'
      refine ⟨?_, ?_, ?_, ?_⟩ <;> dsimp only [] <;> omega
    | found pu =>
      right; right
      have heq : (process_single_company env extract paths kw cst stats company).2.2
          = stats' := by
        simp [process_single_company, hfc, hex]
      rw [heq]
      exact hd

theorem run_loop_preserves_inv (env : DiscoveryEnv)
    (extract : String → ExtractOutcome) (paths kw : List String)
    (companies : List CompanyData) :
    ∀ cst stats,
      (stats.total_processed = stats.successful + stats.failed →
        ((run_loop env extract paths kw companies cst stats).2.2).total_processed
          = ((run_loop env extract paths kw companies cst stats).2.2).successful
            + ((run_loop env extract paths kw companies cst stats).2.2).failed)
      ∧ (stats.successful = tierSum stats →
        ((run_loop env extract paths kw companies cst stats).2.2).successful
          = tierSum ((run_loop env extract paths kw companies cst stats).2.2)) := by
  induction companies with
  | nil =>
    intro cst stats
    exact ⟨fun h => h, fun h => h⟩
  | cons c rest ih =>
    intro cst stats
    have hd := process_single_company_stats_delta env extract paths kw cst stats c
    rcases hp : process_single_company env extract paths kw cst stats c
      with ⟨res, cst', stats'⟩
    rw [hp] at hd
    dsimp only [] at hd
    have hrest := ih cst' stats'
    rcases hr : run_loop env extract paths kw rest cst' stats' with ⟨rs, cst'', stats''⟩
    rw [hr] at hrest
    dsimp only [] at hrest
    have hgoal : (run_loop env extract paths kw (c :: rest) cst stats).2.2 = stats'' := by
      cases res <;> simp [run_loop, hp, hr]
    rw [hgoal]
    constructor
    · intro h
      refine hrest.1 ?_
      rcases hd with ⟨h1, h2, h3, _⟩ | ⟨h1, h2, h3, _⟩ | ⟨h1, h2, h3, _⟩ <;> omega
    · intro h
      refine hrest.2 ?_
      rcases hd with ⟨_, h2, _, h4⟩ | ⟨_, h2, _, h4⟩ | ⟨_, h2, _, h4⟩ <;> omega

/-! ## C2 -/

/-- C2: increment_success adds 1 to both successful and total_processed and
leaves failed alone; increment_failure adds 1 to both failed and
total_processed and leaves successful alone; the AI fallback (the only
other statistics-touching component) never changes any of the three; when a
career page is found but no position is, both increments fire for that
company (total_processed grows by 2); consequently total_processed =
successful + failed holds after the loop advances past every company of a
run. -/
theorem C2_total_eq_success_plus_failed (t : Nat) (s : ExecutionStatistics)
    (env : DiscoveryEnv) (extract : String → ExtractOutcome) (paths kw : List String)
    (companies : List CompanyData) (cst : ClaudeState) (stats : ExecutionStatistics) :
    ((increment_success t s).successful = s.successful + 1
      ∧ (increment_success t s).total_processed = s.total_processed + 1
      ∧ (increment_success t s).failed = s.failed)
    ∧ ((increment_failure s).failed = s.failed + 1
      ∧ (increment_failure s).total_processed = s.total_processed + 1
      ∧ (increment_failure s).successful = s.successful)
    ∧ (∀ api st,
        ((find_career_page_ai api st s).2.2.1).total_processed = s.total_processed
        ∧ ((find_career_page_ai api st s).2.2.1).successful = s.successful
        ∧ ((find_career_page_ai api st s).2.2.1).failed = s.failed)
    ∧ (∀ company cu cst' stats' inv,
        find_career_page env paths kw cst stats company.company_url
          = (some cu, cst', stats', inv) →
        extract cu = ExtractOutcome.notFound →
        ((process_single_company env extract paths kw cst stats company).2.2).total_processed
            = stats.total_processed + 2
        ∧ ((process_single_company env extract paths kw cst stats company).2.2).successful
            = stats.successful + 1
        ∧ ((process_single_company env extract paths kw cst stats company).2.2).failed
            = stats.failed + 1)
    ∧ (stats.total_processed = stats.successful + stats.failed →
        ((run_loop env extract paths kw companies cst stats).2.2).total_processed
          = ((run_loop env extract paths kw companies cst stats).2.2).successful
            + ((run_loop env extract paths kw companies cst stats).2.2).failed) := by
  have hs := increment_success_fields t s
  have hf := increment_failure_fields s
  refine ⟨⟨hs.2.1, hs.1, hs.2.2⟩, ⟨hf.2.2.1, hf.1, hf.2.1⟩, ?_, ?_, ?_⟩
  · intro api st
    have h := find_career_page_ai_preserves_run_counters api st s
    exact ⟨h.1, h.2.1, h.2.2.1⟩
  · intro company cu cst' stats' inv hfc hex
    have hdelta := find_career_page_stats_delta env paths kw cst stats
      company.company_url
    rw [hfc] at hdelta
    dsimp only [] at hdelta
    rcases hdelta with ⟨hnone, _⟩ | ⟨_, h1, h2, h3, _⟩
    · exact absurd hnone (by simp)
    have heq : process_single_company env extract paths kw cst stats company
        = (none, cst', increment_failure stats') := by
      simp [process_single_company, hfc, hex]
    rw [heq]
    have hif := increment_failure_fields stats'
    refine ⟨?_, ?_, ?_⟩ <;> dsimp only [] <;> omega
  · exact (run_loop_preserves_inv env extract paths kw companies cst stats).1

/-- C2 witness: a two-company run in which both companies find a career
page but no position — both increments fire for each — ends with
total_processed = 4 = successful + failed = 2 + 2. -/
theorem C2_total_eq_success_plus_failed_witness :
    ((run_loop envAB extractNone careerPaths careerKeywords [companyA, companyB]
        cstFresh initStats).2.2).total_processed
      = ((run_loop envAB extractNone careerPaths careerKeywords [companyA, companyB]
          cstFresh initStats).2.2).successful
        + ((run_loop envAB extractNone careerPaths careerKeywords [companyA, companyB]
            cstFresh initStats).2.2).failed
    ∧ ((run_loop envAB extractNone careerPaths careerKeywords [companyA, companyB]
        cstFresh initStats).2.2).total_processed = 4 :=
  ⟨(C2_total_eq_success_plus_failed 1 initStats envAB extractNone careerPaths
      careerKeywords [companyA, companyB] cstFresh initStats).2.2.2.2 rfl,
   by decide⟩

/-! ## C10 -/

/-- C10: increment_success, always invoked by the discovery engine with a
tier in {1, 2, 3}, bumps exactly that tier's counter together with
successful; increment_failure touches neither successful nor any tier
counter; hence successful = tier1_success + tier2_success + tier3_success
throughout every run. -/
theorem C10_successful_eq_tier_sum (t : Nat) (s : ExecutionStatistics)
    (env : DiscoveryEnv) (extract : String → ExtractOutcome) (paths kw : List String)
    (companies : List CompanyData) (cst : ClaudeState) (stats : ExecutionStatistics) :
    ((t = 1 ∨ t = 2 ∨ t = 3) →
      tierCount (increment_success t s) t = tierCount s t + 1
      ∧ (∀ u, u ≠ t → tierCount (increment_success t s) u = tierCount s u)
      ∧ (increment_success t s).successful = s.successful + 1
      ∧ tierSum (increment_success t s) = tierSum s + 1)
    ∧ ((increment_failure s).successful = s.successful
      ∧ tierSum (increment_failure s) = tierSum s
      ∧ ∀ u, tierCount (increment_failure s) u = tierCount s u)
    ∧ (stats.successful = tierSum stats →
        ((run_loop env extract paths kw companies cst stats).2.2).successful
          = tierSum ((run_loop env extract paths kw companies cst stats).2.2)) := by
  have hf := increment_failure_fields s
  refine ⟨?_, ⟨hf.2.1, hf.2.2.2.1, hf.2.2.2.2⟩, ?_⟩
  · intro ht
    have hc := increment_success_tierCount t ht s
    exact ⟨hc.1, hc.2, (increment_success_fields t s).2.1,
      increment_success_tierSum t ht s⟩
  · exact (run_loop_preserves_inv env extract paths kw companies cst stats).2

/-- C10 witness: after a run with one Tier 1 success and one Tier 2
success, successful = 2 = 1 + 1 + 0 = tier1 + tier2 + tier3. -/
theorem C10_successful_eq_tier_sum_witness :
    ((run_loop envAB extractNone careerPaths careerKeywords [companyA, companyB]
        cstFresh initStats).2.2).successful
      = tierSum ((run_loop envAB extractNone careerPaths careerKeywords
          [companyA, companyB] cstFresh initStats).2.2)
    ∧ ((run_loop envAB extractNone careerPaths careerKeywords [companyA, companyB]
        cstFresh initStats).2.2).successful = 2 :=
  ⟨(C10_successful_eq_tier_sum 1 initStats envAB extractNone careerPaths careerKeywords
      [companyA, companyB] cstFresh initStats).2.2 rfl,
   by decide⟩

/-! ## C9 -/

/-- C9 counterexample: in a run where company A succeeds via Tier 1 and
then company B succeeds via Tier 2 (tier2_success is the counter most
recently incremented, going 0 to 1 while B is processed), the result
assembled for B carries source_tier = 1, not 2: _determine_tier returns
the maximal counter (ties broken towards the lowest tier), not the most
recently incremented one. -/
theorem C9_most_recent_tier_counterexample :
    (run_loop envAB extractFound careerPaths careerKeywords [companyA, companyB]
      cstFresh initStats).1.map (fun r => r.source_tier) = [1, 1]
    ∧ (run_loop envAB extractFound careerPaths careerKeywords [companyA]
        cstFresh initStats).2.2.tier2_success = 0
    ∧ (run_loop envAB extractFound careerPaths careerKeywords [companyA, companyB]
        cstFresh initStats).2.2.tier2_success = 1
    ∧ (run_loop envAB extractFound careerPaths careerKeywords [companyA, companyB]
        cstFresh initStats).2.2.tier1_success = 1
    ∧ (run_loop envAB extractFound careerPaths careerKeywords [companyA, companyB]
        cstFresh initStats).1.map (fun r => r.source_tier) ≠ [1, 2] := by
  refine ⟨?_, ?_, ?_, ?_, ?_⟩ <;> decide

/-- C9 amended: _determine_tier returns the tier whose cumulative success
counter is largest, the lowest tier winning ties — which coincides with
the most recently incremented counter only when that counter is strictly
largest; in particular a run whose only company succeeds via Tier 2
assembles its result with source_tier = 2. -/
theorem C9_determine_tier_argmax (s : ExecutionStatistics) :
    (determine_tier s = 1 ∨ determine_tier s = 2 ∨ determine_tier s = 3)
    ∧ tierCount s (determine_tier s)
        = max (max s.tier1_success s.tier2_success) s.tier3_success
    ∧ (∀ t, 1 ≤ t → t < determine_tier s →
        tierCount s t < tierCount s (determine_tier s))
    ∧ determine_tier (increment_success 2 initStats) = 2
    ∧ (run_loop envAB extractFound careerPaths careerKeywords [companyB] cstFresh
        initStats).1.map (fun r => r.source_tier) = [2] := by
  by_cases h12 : s.tier1_success < s.tier2_success
  · by_cases h23 : s.tier2_success < s.tier3_success
    · have hd : determine_tier s = 3 := by
        simp [determine_tier, pyMaxBySnd, h12, h23]
      rw [hd]
      refine ⟨by simp, ?_, ?_, by decide, by decide⟩
      · simp only [tierCount]
        rw [Nat.max_def, Nat.max_def]
        split_ifs <;> omega
      · intro t h1 h3
        interval_cases t <;> simp [tierCount] <;> omega
    · have hd : determine_tier s = 2 := by
        simp [determine_tier, pyMaxBySnd, h12, h23]
      rw [hd]
      refine ⟨by simp, ?_, ?_, by decide, by decide⟩
      · simp only [tierCount]
        rw [Nat.max_def, Nat.max_def]
        split_ifs <;> omega
      · intro t h1 h2
        interval_cases t
        simp [tierCount]
        omega
  · by_cases h13 : s.tier1_success < s.tier3_success
    · have hd : determine_tier s = 3 := by
        simp [determine_tier, pyMaxBySnd, h12, h13]
      rw [hd]
      refine ⟨by simp, ?_, ?_, by decide, by decide⟩
      · simp only [tierCount]
        rw [Nat.max_def, Nat.max_def]
        split_ifs <;> omega
      · intro t h1 h3
        interval_cases t <;> simp [tierCount] <;> omega
    · have hd : determine_tier s = 1 := by
        simp [determine_tier, pyMaxBySnd, h12, h13]
      rw [hd]
      refine ⟨by simp, ?_, ?_, by decide, by decide⟩
      · simp only [tierCount]
        rw [Nat.max_def, Nat.max_def]
        split_ifs <;> omega
      · intro t h1 h2
        omega

/-- C9 amended witness: for the statistics of a run whose only success was
Tier 2, determine_tier yields 2 and the strictly-smaller-below property
holds at tier 1. -/
theorem C9_determine_tier_argmax_witness :
    tierCount (increment_success 2 initStats) 1
      < tierCount (increment_success 2 initStats)
          (determine_tier (increment_success 2 initStats))
    ∧ determine_tier (increment_success 2 initStats) = 2 :=
  ⟨(C9_determine_tier_argmax (increment_success 2 initStats)).2.2.1 1 (by decide)
      (by decide),
   (C9_determine_tier_argmax (increment_success 2 initStats)).2.2.2.1⟩

end JobSource
